import Mathlib

/-!
A shallow embedding of the `vue-aptos-wallets` session-lifecycle core and
proofs about it.

The embedding covers the two source files:

* the `useWallets` composable (the session state machine: `init`,
  `setWalletName`/`select`, `connect`, `disconnect`, the adapter event
  handlers, the derived `wallets` view, and the sign operations);
* the `useVueWalletProvider` variant (a second `connect(name)` whose
  re-entrancy guard is commented out in the source).

Vue `ref`s become fields of an explicit `State` record; the single `await`
suspension point inside `connect`/`disconnect` splits each of those
operations into a phase-1 function (everything executed synchronously up to
and including issuing the adapter call) and a phase-2 function (the
resumption, parameterised by the adapter call's outcome).  Opaque payloads
(account keys, network info, transaction payloads, handler identities) are
modelled as `Nat` identifiers.  `localStorage` under the configured key is
modelled as a single `Option String` cell that always succeeds (storage
errors are swallowed by the source and no claim concerns them).
-/

namespace VueAptosWallets

/-- `WalletReadyState` enum of the adapter package. -/
inductive WalletReadyState
  | Installed
  | NotDetected
  | Loadable
  | Unsupported
deriving DecidableEq, Repr

/-- The error kinds raised by the core: the three named wallet errors plus
opaque adapter rejections (identified by a code). -/
inductive WalletErrorKind
  | WalletNotSelectedError
  | WalletNotReadyError
  | WalletNotConnectedError
  | AdapterError (code : Nat)
deriving DecidableEq, Repr

/-- Snapshot of a wallet adapter's externally owned fields, as read by the
core (`name`, `url`, `readyState`, `connected`, `publicAccount`,
`network`).  The real adapter object is mutable; mutation of the active
adapter is modelled by a dedicated transition in the step relations below. -/
structure WalletAdapter where
  name : String
  url : Option String
  readyState : WalletReadyState
  connected : Bool
  publicAccount : Option Nat
  network : Option Nat
deriving DecidableEq, Repr

/-- `Wallet` entry of the derived `wallets` view: `{adapter, readyState}`. -/
structure Wallet where
  adapter : WalletAdapter
  readyState : WalletReadyState
deriving DecidableEq, Repr

/-- The four session event listeners attached by `handleAfterConnect` and
removed by `handleDisconnect`. -/
inductive EventKind
  | accountChange
  | networkChange
  | disconnectEvent
  | errorEvent
deriving DecidableEq, Repr

/-- The state of one `useWallets()` instance: each Vue `ref` is a field.
`storage` is the persisted selection (the value stored under the configured
localStorage key).  `eventListeners` records which of the four session
listeners are currently attached to the active adapter.  `handlerCalls`
logs every error actually delivered to the configured `onError` handler
(`onError` itself is the handler's identity, `none` when undefined).
`connectCalls` counts invocations of the adapter's `connect()` operation. -/
structure State where
  adapters : List WalletAdapter
  localStorageKey : String
  autoConnect : Bool
  onError : Option Nat
  walletName : Option String
  wallet : Option Wallet
  adapter : Option WalletAdapter
  account : Option Nat
  connected : Bool
  connecting : Bool
  disconnecting : Bool
  walletNetwork : Option Nat
  wallets : List Wallet
  storage : Option String
  eventListeners : List EventKind
  handlerCalls : List WalletErrorKind
  connectCalls : Nat
deriving DecidableEq, Repr

/-- The state of a fresh `useWallets()` instance: every ref holds its
initial value (`localStorageKey` defaults to `"walletName"`); the durable
store may already hold a persisted selection from a previous page load. -/
def initialState (persisted : Option String) : State where
  adapters := []
  localStorageKey := "walletName"
  autoConnect := false
  onError := none
  walletName := none
  wallet := none
  adapter := none
  account := none
  connected := false
  connecting := false
  disconnecting := false
  walletNetwork := none
  wallets := []
  storage := persisted
  eventListeners := []
  handlerCalls := []
  connectCalls := 0

/-- Arguments of `init` (`UseWalletsProvider`): wallets list, optional
`onError` handler, optional `localStorageKey`, optional `autoConnect`. -/
structure UseWalletsProvider where
  wallets : List WalletAdapter
  onError : Option Nat
  localStorageKey : Option String
  autoConnect : Option Bool
deriving DecidableEq, Repr

/-- `init`: stores the adapters; overwrites the storage key when the
argument is truthy (a non-empty string) and `autoConnect` when defined; the
`onError` assignment is guarded by `if (onError.value)` — the *stored*
handler being already defined — exactly as in the source.  Assigning
`adapters.value` triggers the `watch(adapters)` body, which rebuilds the
derived `wallets` view from the new registry. -/
def init (args : UseWalletsProvider) (s : State) : State :=
  let s := { s with adapters := args.wallets }
  let s := match args.localStorageKey with
    | some lsKey => if lsKey == "" then s else { s with localStorageKey := lsKey }
    | none => s
  let s := match args.autoConnect with
    | some autoConnection => { s with autoConnect := autoConnection }
    | none => s
  let s := if s.onError.isSome then { s with onError := args.onError } else s
  { s with wallets := args.wallets.map fun adpt => { adapter := adpt, readyState := adpt.readyState } }

/-- `setDefaultState`: nulls `wallet`, `adapter`, `account`,
`walletNetwork` and clears `connected`. -/
def setDefaultState (s : State) : State :=
  { s with wallet := none, adapter := none, account := none,
           connected := false, walletNetwork := none }

/-- `setWalletName` (exposed as `select`): writes or removes the persisted
selection and mirrors it into `walletName`.  Storage is modelled as always
available (the source swallows storage exceptions). -/
def setWalletName (name : Option String) (s : State) : State :=
  match name with
  | none => { s with storage := none, walletName := none }
  | some n => { s with storage := some n, walletName := some n }

/-- `handleError`: invokes the stored `onError` handler when one is defined
(the `|| console.log` fallback in the source is dead code under that
guard), and returns the error to the caller, who throws it. -/
def handleError (error : WalletErrorKind) (s : State) : State :=
  if s.onError.isSome then { s with handlerCalls := s.handlerCalls ++ [error] } else s

/-- `handleAddressChange`: pulls `adapter.publicAccount` into `account`
when an adapter is active. -/
def handleAddressChange (s : State) : State :=
  match s.adapter with
  | none => s
  | some a => { s with account := a.publicAccount }

/-- `handleNetworkChange`: pulls `adapter.network` into `walletNetwork`
when an adapter is active. -/
def handleNetworkChange (s : State) : State :=
  match s.adapter with
  | none => s
  | some a => { s with walletNetwork := a.network }

/-- `handleAfterConnect`: attaches the four session listeners on the active
adapter, then pulls the current account and network once
(`onAccountChange()` / `onNetworkChange()` make the adapter emit the
corresponding events, handled by `handleAddressChange` /
`handleNetworkChange`). -/
def handleAfterConnect (s : State) : State :=
  match s.adapter with
  | none => s
  | some _ =>
    let s := { s with eventListeners := s.eventListeners ++
      [EventKind.accountChange, EventKind.networkChange,
       EventKind.disconnectEvent, EventKind.errorEvent] }
    handleNetworkChange (handleAddressChange s)

/-- The four `off` calls of `handleDisconnect`: each removes its listener
kind (removal by identity succeeds here because the source passes the same
named function references it passed to `on`). -/
def detachSessionListeners (ls : List EventKind) : List EventKind :=
  ((((ls.filter (· != EventKind.accountChange)).filter
      (· != EventKind.networkChange)).filter
      (· != EventKind.disconnectEvent)).filter
      (· != EventKind.errorEvent))

/-- `handleDisconnect`: the single teardown routine — clears the persisted
selection, and when an adapter is active removes the four listeners and
resets the session to the all-null/false default state.  It is both the
adapter-originated `disconnect` event handler and the routine run in
`disconnect()`'s `finally` block. -/
def handleDisconnect (s : State) : State :=
  let s := setWalletName none s
  match s.adapter with
  | none => s
  | some _ =>
    setDefaultState { s with eventListeners := detachSessionListeners s.eventListeners }

/-- Outcome of the synchronous prefix of `connect()`. -/
inductive ConnectOutcome
  | noop
  | errNotSelected
  | errNotReady
  | pending
deriving DecidableEq, Repr

/-- `connect()`, phase 1: everything executed synchronously up to and
including issuing `selectedWallet.adapter.connect()`.  Mirrors the source:
the re-entrancy guard; lookup of the selected wallet by exact name match
(`name === walletName.value`, never matching when `walletName` is null);
`throw handleError(new WalletNotSelectedError())` when nothing matches (the
subsequent `else setDefaultState()` branch of the source is unreachable);
eager population of `wallet`/`adapter`/`connected`/`account`/
`walletNetwork` from the matched entry; the readiness check that clears
the selection and throws `WalletNotReadyError` (the `window.open` of the
install URL is an external browser effect outside the session state); and
finally `connecting := true` plus the adapter connect call (counted in
`connectCalls`). -/
def connectPhase1 (s : State) : State × ConnectOutcome :=
  if s.connecting || s.disconnecting || s.connected then (s, ConnectOutcome.noop)
  else
    match s.wallets.find? (fun wAdapter => some wAdapter.adapter.name == s.walletName) with
    | none => (handleError WalletErrorKind.WalletNotSelectedError s, ConnectOutcome.errNotSelected)
    | some selectedWallet =>
      let s := { s with
        wallet := some selectedWallet,
        adapter := some selectedWallet.adapter,
        connected := selectedWallet.adapter.connected,
        account := selectedWallet.adapter.publicAccount,
        walletNetwork := selectedWallet.adapter.network }
      if !(selectedWallet.adapter.readyState == WalletReadyState.Installed
            || selectedWallet.adapter.readyState == WalletReadyState.Loadable) then
        (handleError WalletErrorKind.WalletNotReadyError (setWalletName none s),
         ConnectOutcome.errNotReady)
      else
        ({ s with connecting := true, connectCalls := s.connectCalls + 1 },
         ConnectOutcome.pending)

/-- `connect()`, phase 2: the resumption after the adapter connect call
settles.  On success `handleAfterConnect` runs; on rejection the persisted
selection is cleared and the original error is rethrown (note:
`handleError` is *not* invoked on this path).  The `finally` block resets
`connecting` on both paths.  The returned error is what the call rejects
with (`none` = resolved normally). -/
def connectPhase2 (res : Except WalletErrorKind Unit) (s : State) : State × Option WalletErrorKind :=
  match res with
  | Except.ok _ =>
    let s := handleAfterConnect s
    ({ s with connecting := false }, none)
  | Except.error e =>
    let s := setWalletName none s
    ({ s with connecting := false }, some e)

/-- Outcome of the synchronous prefix of `disconnect()`. -/
inductive DisconnectOutcome
  | noop
  | noAdapter
  | pending
deriving DecidableEq, Repr

/-- `disconnect()`, phase 1: the `disconnecting` guard; the no-adapter
short-circuit that only clears the persisted selection; otherwise
`disconnecting := true` and the adapter disconnect call is issued. -/
def disconnectPhase1 (s : State) : State × DisconnectOutcome :=
  if s.disconnecting then (s, DisconnectOutcome.noop)
  else
    match s.adapter with
    | none => (setWalletName none s, DisconnectOutcome.noAdapter)
    | some _ => ({ s with disconnecting := true }, DisconnectOutcome.pending)

/-- `disconnect()`, phase 2: on rejection the persisted selection is
cleared and the error rethrown; the `finally` block always resets
`disconnecting` and then runs `handleDisconnect` — the same teardown
routine as the adapter-originated disconnect event. -/
def disconnectPhase2 (res : Except WalletErrorKind Unit) (s : State) : State × Option WalletErrorKind :=
  match res with
  | Except.ok _ =>
    let s := { s with disconnecting := false }
    (handleDisconnect s, none)
  | Except.error e =>
    let s := setWalletName none s
    let s := { s with disconnecting := false }
    (handleDisconnect s, some e)

/-- A complete `connect()` call: phase 1, and — only when an adapter
connect call was actually issued — phase 2 with the adapter's outcome. -/
def connectFull (res : Except WalletErrorKind Unit) (s : State) : State :=
  let p := connectPhase1 s
  if p.2 = ConnectOutcome.pending then (connectPhase2 res p.1).1 else p.1

/-- A complete `disconnect()` call. -/
def disconnectFull (res : Except WalletErrorKind Unit) (s : State) : State :=
  let p := disconnectPhase1 s
  if p.2 = DisconnectOutcome.pending then (disconnectPhase2 res p.1).1 else p.1

/-- `signAndSubmitTransaction(transaction, option?)`: throws
`handleError(new WalletNotSelectedError())` without an active adapter,
`handleError(new WalletNotConnectedError())` when not connected, otherwise
delegates to the adapter — whose response is the environment parameter
`adapterResult` — and returns it unmodified. -/
def signAndSubmitTransaction (transaction : Nat) (option : Option Nat)
    (adapterResult : Except WalletErrorKind Nat) (s : State) :
    State × Except WalletErrorKind Nat :=
  match s.adapter with
  | none => (handleError WalletErrorKind.WalletNotSelectedError s,
             Except.error WalletErrorKind.WalletNotSelectedError)
  | some _ =>
    if !s.connected then
      (handleError WalletErrorKind.WalletNotConnectedError s,
       Except.error WalletErrorKind.WalletNotConnectedError)
    else (s, adapterResult)

/-- `signTransaction(transaction, option?)`: same guards, then delegates. -/
def signTransaction (transaction : Nat) (option : Option Nat)
    (adapterResult : Except WalletErrorKind Nat) (s : State) :
    State × Except WalletErrorKind Nat :=
  match s.adapter with
  | none => (handleError WalletErrorKind.WalletNotSelectedError s,
             Except.error WalletErrorKind.WalletNotSelectedError)
  | some _ =>
    if !s.connected then
      (handleError WalletErrorKind.WalletNotConnectedError s,
       Except.error WalletErrorKind.WalletNotConnectedError)
    else (s, adapterResult)

/-- `signMessage(msgPayload)`: same guards, then delegates. -/
def signMessage (msgPayload : Nat)
    (adapterResult : Except WalletErrorKind Nat) (s : State) :
    State × Except WalletErrorKind Nat :=
  match s.adapter with
  | none => (handleError WalletErrorKind.WalletNotSelectedError s,
             Except.error WalletErrorKind.WalletNotSelectedError)
  | some _ =>
    if !s.connected then
      (handleError WalletErrorKind.WalletNotConnectedError s,
       Except.error WalletErrorKind.WalletNotConnectedError)
    else (s, adapterResult)

/-- JavaScript `Array.prototype.findIndex` (the index of the first element
satisfying the predicate), with the not-found `-1` modelled as `none`. -/
def findIndexW (p : Wallet → Bool) : List Wallet → Option Nat
  | [] => none
  | w :: ws => if p w then some 0 else (findIndexW p ws).map (· + 1)

/-- `handleReadyStateChange` of the `watch(adapters)` body: locate the
entry whose adapter name equals the notifying adapter's name; when absent
return the list unchanged; otherwise rebuild the list with only that
position replaced by a fresh `{adapter: currentWallet.adapter, readyState}`
pair (the source's `slice(0, index)` / `slice(index + 1)` splice).  The
inner `none` branch is unreachable: a found index is always in bounds. -/
def handleReadyStateChange (current : WalletAdapter) (isReadyState : WalletReadyState)
    (wallets : List Wallet) : List Wallet :=
  match findIndexW (fun prevWallet => prevWallet.adapter.name == current.name) wallets with
  | none => wallets
  | some index =>
    match wallets[index]? with
    | none => wallets
    | some currentWallet =>
      wallets.take index
        ++ ({ adapter := currentWallet.adapter, readyState := isReadyState } : Wallet)
        :: wallets.drop (index + 1)

/-!
## The `useVueWalletProvider` variant

The second source file exposes a module-level `connecting` ref and a
`connect(toConnectWalletName)` whose re-entrancy guard is *commented out*.
Its state and its connect call (split at the `await` like the main
variant) are embedded separately.
-/

/-- Module-level state of the `useVueWalletProvider` variant. -/
structure ProviderState where
  connecting : Bool
  wallets : List Wallet
  onError : Option Nat
  handlerCalls : List WalletErrorKind
  connectCalls : Nat
deriving DecidableEq, Repr

/-- `handleError` of the variant (same shape as the main one). -/
def handleErrorP (error : WalletErrorKind) (s : ProviderState) : ProviderState :=
  if s.onError.isSome then { s with handlerCalls := s.handlerCalls ++ [error] } else s

/-- `connect(toConnectWalletName)` of `useVueWalletProvider.ts`, phase 1.
The guard `if (connecting.value || ...) return;` is commented out in the
source, so there is no `noop` path: every call proceeds to the lookup, and
a ready wallet always reaches the adapter connect call.  (The variant's
readiness-failure path does not clear any persisted selection — it has
none.) -/
def connectProviderPhase1 (toConnectWalletName : String) (s : ProviderState) :
    ProviderState × ConnectOutcome :=
  match s.wallets.find? (fun wAdapter => wAdapter.adapter.name == toConnectWalletName) with
  | none => (handleErrorP WalletErrorKind.WalletNotSelectedError s, ConnectOutcome.errNotSelected)
  | some selectedWallet =>
    if !(selectedWallet.adapter.readyState == WalletReadyState.Installed
          || selectedWallet.adapter.readyState == WalletReadyState.Loadable) then
      (handleErrorP WalletErrorKind.WalletNotReadyError s, ConnectOutcome.errNotReady)
    else
      ({ s with connecting := true, connectCalls := s.connectCalls + 1 },
       ConnectOutcome.pending)

/-- The record returned by the variant's `connect` on success. -/
structure ConnectedResult where
  provider : WalletAdapter
  network : Option Nat
  connector : String
  connectedAccount : Option Nat
deriving DecidableEq, Repr

/-- `connect(toConnectWalletName)` of the variant, phase 2: on success
returns the `{provider, network, connector, connectedAccount}` record built
from the selected adapter; on rejection rethrows; `finally` resets
`connecting`. -/
def connectProviderPhase2 (selectedWallet : Wallet) (res : Except WalletErrorKind Unit)
    (s : ProviderState) : ProviderState × Except WalletErrorKind ConnectedResult :=
  match res with
  | Except.ok _ =>
    ({ s with connecting := false },
     Except.ok { provider := selectedWallet.adapter,
                 network := selectedWallet.adapter.network,
                 connector := selectedWallet.adapter.name,
                 connectedAccount := selectedWallet.adapter.publicAccount })
  | Except.error e => ({ s with connecting := false }, Except.error e)

/-!
## The `readyStateChange` subscription lifecycle

The adapters are `eventemitter3`-style emitters: `on(event, fn, ctx)`
appends the listener, `off(event, fn, ctx)` removes listeners matching `fn`
by *function identity*.  Each evaluation of an arrow function expression
yields a fresh function object, modelled by a fresh `Nat` identity drawn
from a counter.  An emitter's `readyStateChange` listener list is kept per
adapter name.
-/

/-- `off`: identity-based removal of a listener. -/
def offListener (ls : List Nat) (fnId : Nat) : List Nat :=
  ls.filter (fun x => x ≠ fnId)

/-- `on`: appends a listener. -/
def onListener (ls : List Nat) (fnId : Nat) : List Nat :=
  ls ++ [fnId]

/-- Apply `f` to the listener list of the adapter named `name`. -/
def updateEmitter (name : String) (f : List Nat → List Nat) :
    List (String × List Nat) → List (String × List Nat)
  | [] => []
  | (n, ls) :: rest =>
    if n = name then (n, f ls) :: rest else (n, ls) :: updateEmitter name f rest

/-- Per-adapter `readyStateChange` listener lists plus the fresh-identity
counter for arrow-function objects. -/
structure EmitterState where
  rsListeners : List (String × List Nat)
  nextId : Nat
deriving DecidableEq, Repr

/-- The `watch(adapters)` body's subscription loop: for each adapter of the
(new) registry, `on("readyStateChange", (isReady) => ..., wAdapter)` with a
freshly created arrow function. -/
def watchBody : List String → EmitterState → EmitterState
  | [], sigma => sigma
  | n :: rest, sigma =>
    watchBody rest
      { rsListeners := updateEmitter n (fun ls => onListener ls sigma.nextId) sigma.rsListeners,
        nextId := sigma.nextId + 1 }

/-- The `onCleanup` loop: it iterates `adapters.value` — which at cleanup
time already holds the *new* registry, the ref having been reassigned
before the watcher fires — and calls `off("readyStateChange",
(isReady) => ..., wAdapter)` with a freshly created arrow function, one per
iteration. -/
def watchCleanup : List String → EmitterState → EmitterState
  | [], sigma => sigma
  | n :: rest, sigma =>
    watchCleanup rest
      { rsListeners := updateEmitter n (fun ls => offListener ls sigma.nextId) sigma.rsListeners,
        nextId := sigma.nextId + 1 }

/-- One re-triggering of the `watch(adapters)` watcher after a registry
swap: the previous run's cleanup executes first (over the already-updated
registry), then the body resubscribes. -/
def watchRun (registry : List String) (sigma : EmitterState) : EmitterState :=
  watchBody registry (watchCleanup registry sigma)

/-!
## Interleaving semantics

`Step` is one atomic synchronous segment of execution on the session: a
call to `init` or `select`, a phase of `connect` or `disconnect` (the split
at the `await` lets other segments interleave while an adapter call is in
flight), an adapter-originated event (`disconnect`, `accountChange`,
`networkChange`, `error`, `readyStateChange`), or an external in-place
mutation of the active adapter object / of the adapter objects referenced
by the `wallets` entries (the adapters are externally owned mutable
objects).  The relation is a superset of the program's real schedules
(e.g. a phase-2 resumption step is available even with no call in flight),
which only strengthens invariants proved over it.
-/

inductive Step : State → State → Prop
  | initStep (s : State) (args : UseWalletsProvider) : Step s (init args s)
  | selectStep (s : State) (name : Option String) : Step s (setWalletName name s)
  | connectP1 (s : State) : Step s (connectPhase1 s).1
  | connectP2 (s : State) (res : Except WalletErrorKind Unit) : Step s (connectPhase2 res s).1
  | disconnectP1 (s : State) : Step s (disconnectPhase1 s).1
  | disconnectP2 (s : State) (res : Except WalletErrorKind Unit) :
      Step s (disconnectPhase2 res s).1
  | disconnectEv (s : State) : Step s (handleDisconnect s)
  | accountEv (s : State) : Step s (handleAddressChange s)
  | networkEv (s : State) : Step s (handleNetworkChange s)
  | errorEv (s : State) (e : WalletErrorKind) : Step s (handleError e s)
  | readyEv (s : State) (current : WalletAdapter) (rs : WalletReadyState) :
      Step s { s with wallets := handleReadyStateChange current rs s.wallets }
  | adapterMut (s : State) (a : WalletAdapter) (h : s.adapter.isSome = true) :
      Step s { s with adapter := some a }
  | walletsMut (s : State) (ws : List Wallet) : Step s { s with wallets := ws }

/-- States reachable from a fresh instance (with any persisted selection
surviving from a previous page load) by interleaved execution segments. -/
inductive Reachable : State → Prop
  | start (persisted : Option String) : Reachable (initialState persisted)
  | step {s t : State} : Reachable s → Step s t → Reachable t

/-- One atomic operation in the *sequential* schedule: `connect` and
`disconnect` run to completion (both phases back to back), so no two
lifecycle operations overlap. -/
inductive SeqStep : State → State → Prop
  | initStep (s : State) (args : UseWalletsProvider) : SeqStep s (init args s)
  | selectStep (s : State) (name : Option String) : SeqStep s (setWalletName name s)
  | connectStep (s : State) (res : Except WalletErrorKind Unit) : SeqStep s (connectFull res s)
  | disconnectStep (s : State) (res : Except WalletErrorKind Unit) :
      SeqStep s (disconnectFull res s)
  | disconnectEv (s : State) : SeqStep s (handleDisconnect s)
  | accountEv (s : State) : SeqStep s (handleAddressChange s)
  | networkEv (s : State) : SeqStep s (handleNetworkChange s)
  | errorEv (s : State) (e : WalletErrorKind) : SeqStep s (handleError e s)
  | readyEv (s : State) (current : WalletAdapter) (rs : WalletReadyState) :
      SeqStep s { s with wallets := handleReadyStateChange current rs s.wallets }
  | adapterMut (s : State) (a : WalletAdapter) (h : s.adapter.isSome = true) :
      SeqStep s { s with adapter := some a }
  | walletsMut (s : State) (ws : List Wallet) : SeqStep s { s with wallets := ws }

/-- States reachable when lifecycle operations never overlap. -/
inductive SeqReachable : State → Prop
  | start (persisted : Option String) : SeqReachable (initialState persisted)
  | step {s t : State} : SeqReachable s → SeqStep s t → SeqReachable t

/-!
## Concrete fixtures

A ready adapter whose own `connected` flag is already `true`, a
not-detected adapter, and the states along the trace
`init` → `select "A"` → `connect()` up to its `await` → `disconnect()` up
to its `await`.
-/

/-- An installed adapter that reports `connected = true`. -/
def adapterA : WalletAdapter :=
  { name := "A", url := none, readyState := WalletReadyState.Installed,
    connected := true, publicAccount := some 1, network := some 1 }

/-- A not-yet-detected adapter. -/
def adapterB : WalletAdapter :=
  { name := "B", url := some "https://b.example", readyState := WalletReadyState.NotDetected,
    connected := false, publicAccount := none, network := none }

/-- `init` arguments registering `adapterA` and `adapterB` with no handler. -/
def argsAB : UseWalletsProvider :=
  { wallets := [adapterA, adapterB], onError := none,
    localStorageKey := none, autoConnect := none }

/-- State after `init` with `[adapterA, adapterB]` and `select("A")`. -/
def sSelectedA : State := setWalletName (some "A") (init argsAB (initialState none))

/-- State while the first `connect()` is suspended at the adapter call. -/
def sMidConnect : State := (connectPhase1 sSelectedA).1

/-- State after additionally invoking `disconnect()` up to its own
adapter call, while the `connect()` is still in flight. -/
def sMidBoth : State := (disconnectPhase1 sMidConnect).1

/-- State after `select("B")` instead (fixture for the not-ready path). -/
def sSelectedB : State := setWalletName (some "B") (init argsAB (initialState none))

/-- State after `select("X")`, a name no registered adapter carries. -/
def sSelectedX : State := setWalletName (some "X") (init argsAB (initialState none))

/-- `init` called with a handler (`onError := some 7`) on a fresh
instance. -/
def sInitHandler : State :=
  init { wallets := [], onError := some 7, localStorageKey := none,
         autoConnect := some false } (initialState none)

/-- The same `init`-with-handler state after `select("X")`. -/
def sHandlerSelectedX : State := setWalletName (some "X") sInitHandler

/-- The `useVueWalletProvider` module state while a first `connect` is
still pending (`connecting = true`), with the installed `adapterA`
registered. -/
def providerConnecting : ProviderState :=
  { connecting := true,
    wallets := [{ adapter := adapterA, readyState := adapterA.readyState }],
    onError := none, handlerCalls := [], connectCalls := 0 }

theorem reachable_sSelectedA : Reachable sSelectedA :=
  Reachable.step (Reachable.step (Reachable.start none)
    (Step.initStep _ argsAB)) (Step.selectStep _ (some "A"))

theorem reachable_sMidConnect : Reachable sMidConnect :=
  Reachable.step reachable_sSelectedA (Step.connectP1 _)

theorem reachable_sMidBoth : Reachable sMidBoth :=
  Reachable.step reachable_sMidConnect (Step.disconnectP1 _)

/-!
## Frame lemmas

How each operation affects the fields the invariants read (`adapter`,
`connected`, `connecting`, `disconnecting`, `onError`).
-/

theorem init_frame (args : UseWalletsProvider) (s : State) :
    (init args s).adapter = s.adapter ∧ (init args s).connected = s.connected ∧
    (init args s).connecting = s.connecting ∧ (init args s).disconnecting = s.disconnecting := by
  unfold init; dsimp only; (repeat' split) <;> exact ⟨rfl, rfl, rfl, rfl⟩

theorem init_onError_none (args : UseWalletsProvider) (s : State) (h : s.onError = none) :
    (init args s).onError = none := by
  unfold init; dsimp only; (repeat' split) <;> simp_all

theorem setWalletName_frame (name : Option String) (s : State) :
    (setWalletName name s).adapter = s.adapter ∧ (setWalletName name s).connected = s.connected ∧
    (setWalletName name s).connecting = s.connecting ∧
    (setWalletName name s).disconnecting = s.disconnecting ∧
    (setWalletName name s).onError = s.onError := by
  cases name <;> exact ⟨rfl, rfl, rfl, rfl, rfl⟩

theorem handleError_frame (e : WalletErrorKind) (s : State) :
    (handleError e s).adapter = s.adapter ∧ (handleError e s).connected = s.connected ∧
    (handleError e s).connecting = s.connecting ∧
    (handleError e s).disconnecting = s.disconnecting ∧
    (handleError e s).onError = s.onError := by
  unfold handleError; split <;> exact ⟨rfl, rfl, rfl, rfl, rfl⟩

theorem handleAddressChange_frame (s : State) :
    (handleAddressChange s).adapter = s.adapter ∧
    (handleAddressChange s).connected = s.connected ∧
    (handleAddressChange s).connecting = s.connecting ∧
    (handleAddressChange s).disconnecting = s.disconnecting ∧
    (handleAddressChange s).onError = s.onError := by
  unfold handleAddressChange; split <;> exact ⟨rfl, rfl, rfl, rfl, rfl⟩

theorem handleNetworkChange_frame (s : State) :
    (handleNetworkChange s).adapter = s.adapter ∧
    (handleNetworkChange s).connected = s.connected ∧
    (handleNetworkChange s).connecting = s.connecting ∧
    (handleNetworkChange s).disconnecting = s.disconnecting ∧
    (handleNetworkChange s).onError = s.onError := by
  unfold handleNetworkChange; split <;> exact ⟨rfl, rfl, rfl, rfl, rfl⟩

theorem handleAfterConnect_frame (s : State) :
    (handleAfterConnect s).adapter = s.adapter ∧
    (handleAfterConnect s).connected = s.connected ∧
    (handleAfterConnect s).connecting = s.connecting ∧
    (handleAfterConnect s).disconnecting = s.disconnecting ∧
    (handleAfterConnect s).onError = s.onError := by
  unfold handleAfterConnect handleAddressChange handleNetworkChange
  dsimp only
  (repeat' split) <;> simp_all

theorem handleDisconnect_frame (s : State) :
    (handleDisconnect s).connecting = s.connecting ∧
    (handleDisconnect s).disconnecting = s.disconnecting ∧
    (handleDisconnect s).onError = s.onError := by
  unfold handleDisconnect setDefaultState
  dsimp only
  (repeat' split) <;> cases s <;> simp_all [setWalletName]

theorem connectPhase1_frame (s : State) :
    (connectPhase1 s).1.onError = s.onError ∧
    (connectPhase1 s).1.disconnecting = s.disconnecting := by
  unfold connectPhase1 handleError setWalletName
  dsimp only
  (repeat' split) <;> exact ⟨rfl, rfl⟩

theorem connectPhase2_frame (res : Except WalletErrorKind Unit) (s : State) :
    (connectPhase2 res s).1.adapter = s.adapter ∧
    (connectPhase2 res s).1.connected = s.connected ∧
    (connectPhase2 res s).1.connecting = false ∧
    (connectPhase2 res s).1.disconnecting = s.disconnecting ∧
    (connectPhase2 res s).1.onError = s.onError := by
  obtain ⟨h1, h2, h3, h4, h5⟩ := handleAfterConnect_frame s
  cases res <;> unfold connectPhase2 <;> dsimp only <;> simp_all [setWalletName]

theorem disconnectPhase1_frame (s : State) :
    (disconnectPhase1 s).1.adapter = s.adapter ∧
    (disconnectPhase1 s).1.connected = s.connected ∧
    (disconnectPhase1 s).1.connecting = s.connecting ∧
    (disconnectPhase1 s).1.onError = s.onError := by
  unfold disconnectPhase1 setWalletName
  dsimp only
  (repeat' split) <;> exact ⟨rfl, rfl, rfl, rfl⟩

theorem disconnectPhase2_frame (res : Except WalletErrorKind Unit) (s : State) :
    (disconnectPhase2 res s).1.connecting = s.connecting ∧
    (disconnectPhase2 res s).1.disconnecting = false ∧
    (disconnectPhase2 res s).1.onError = s.onError := by
  cases res with
  | ok u =>
    obtain ⟨g1, g2, g3⟩ := handleDisconnect_frame { s with disconnecting := false }
    exact ⟨g1, g2, g3⟩
  | error e =>
    obtain ⟨g1, g2, g3⟩ :=
      handleDisconnect_frame { setWalletName none s with disconnecting := false }
    exact ⟨by simpa [setWalletName] using g1, g2, by simpa [setWalletName] using g3⟩

/-!
## The `connected → adapter` invariant
-/

theorem adapterInv_of_frame {s t : State} (ha : t.adapter = s.adapter)
    (hc : t.connected = s.connected)
    (h : s.connected = true → s.adapter.isSome = true) :
    t.connected = true → t.adapter.isSome = true := by
  intro hct
  rw [ha]
  exact h (hc ▸ hct)

theorem connectPhase1_adapterInv (s : State)
    (h : s.connected = true → s.adapter.isSome = true) :
    (connectPhase1 s).1.connected = true → (connectPhase1 s).1.adapter.isSome = true := by
  unfold connectPhase1 handleError setWalletName
  dsimp only
  (repeat' split) <;> simp_all

theorem handleDisconnect_adapterInv (s : State)
    (h : s.connected = true → s.adapter.isSome = true) :
    (handleDisconnect s).connected = true → (handleDisconnect s).adapter.isSome = true := by
  unfold handleDisconnect setDefaultState setWalletName
  dsimp only
  (repeat' split) <;> simp_all

theorem disconnectPhase2_adapterInv (res : Except WalletErrorKind Unit) (s : State)
    (h : s.connected = true → s.adapter.isSome = true) :
    (disconnectPhase2 res s).1.connected = true →
      (disconnectPhase2 res s).1.adapter.isSome = true := by
  cases res with
  | ok u => exact handleDisconnect_adapterInv _ h
  | error e => exact handleDisconnect_adapterInv _ h

theorem step_adapterInv {s t : State} (hstep : Step s t)
    (h : s.connected = true → s.adapter.isSome = true) :
    t.connected = true → t.adapter.isSome = true := by
  cases hstep with
  | initStep args =>
    exact adapterInv_of_frame (init_frame args s).1 (init_frame args s).2.1 h
  | selectStep name =>
    exact adapterInv_of_frame (setWalletName_frame name s).1 (setWalletName_frame name s).2.1 h
  | connectP1 => exact connectPhase1_adapterInv s h
  | connectP2 res =>
    exact adapterInv_of_frame (connectPhase2_frame res s).1 (connectPhase2_frame res s).2.1 h
  | disconnectP1 =>
    exact adapterInv_of_frame (disconnectPhase1_frame s).1 (disconnectPhase1_frame s).2.1 h
  | disconnectP2 res => exact disconnectPhase2_adapterInv res s h
  | disconnectEv => exact handleDisconnect_adapterInv s h
  | accountEv =>
    exact adapterInv_of_frame (handleAddressChange_frame s).1 (handleAddressChange_frame s).2.1 h
  | networkEv =>
    exact adapterInv_of_frame (handleNetworkChange_frame s).1 (handleNetworkChange_frame s).2.1 h
  | errorEv e =>
    exact adapterInv_of_frame (handleError_frame e s).1 (handleError_frame e s).2.1 h
  | readyEv current rs => exact h
  | adapterMut a hs => intro _; rfl
  | walletsMut ws => exact h

/-- C4: for every session state reachable by any interleaving of
`connect()`, `disconnect()`, `select()`, adapter-originated notifications
and external adapter mutation, `connected = true` implies that the active
adapter is non-null. -/
theorem connected_implies_active_adapter (s : State) (h : Reachable s) :
    s.connected = true → s.adapter.isSome = true := by
  induction h with
  | start persisted => intro hc; simp [initialState] at hc
  | step hr hs ih => exact step_adapterInv hs ih

/-- Witness for C4 at the concrete reachable mid-connect state, where
`connected` is `true` and the adapter is indeed populated. -/
theorem connected_implies_active_adapter_witness :
    sMidConnect.connected = true ∧ sMidConnect.adapter.isSome = true :=
  ⟨rfl, connected_implies_active_adapter sMidConnect reachable_sMidConnect rfl⟩

/-!
## The stored error handler is never installed
-/

theorem step_onError_none {s t : State} (hstep : Step s t) (h : s.onError = none) :
    t.onError = none := by
  cases hstep with
  | initStep args => exact init_onError_none args s h
  | selectStep name => exact (setWalletName_frame name s).2.2.2.2 ▸ h
  | connectP1 => exact (connectPhase1_frame s).1 ▸ h
  | connectP2 res => exact (connectPhase2_frame res s).2.2.2.2 ▸ h
  | disconnectP1 => exact (disconnectPhase1_frame s).2.2.2 ▸ h
  | disconnectP2 res => exact (disconnectPhase2_frame res s).2.2 ▸ h
  | disconnectEv => exact (handleDisconnect_frame s).2.2 ▸ h
  | accountEv => exact (handleAddressChange_frame s).2.2.2.2 ▸ h
  | networkEv => exact (handleNetworkChange_frame s).2.2.2.2 ▸ h
  | errorEv e => exact (handleError_frame e s).2.2.2.2 ▸ h
  | readyEv current rs => exact h
  | adapterMut a hs => exact h
  | walletsMut ws => exact h

/-- C10: on a fresh instance the stored `onError` handler starts undefined,
and `init`'s assignment `if (onError.value) onError.value = onHandleError`
is guarded by the *stored* handler already being defined — so after any
sequence of operations (any `init` calls included) the stored handler is
still undefined and `handleError` never invokes the configured handler: it
is the identity on the session state. -/
theorem onError_never_installed (s : State) (h : Reachable s) :
    s.onError = none ∧ ∀ e : WalletErrorKind, handleError e s = s := by
  have hn : s.onError = none := by
    induction h with
    | start persisted => rfl
    | step hr hs ih => exact step_onError_none hs ih
  refine ⟨hn, fun e => ?_⟩
  simp [handleError, hn]

theorem reachable_sInitHandler : Reachable sInitHandler :=
  Reachable.step (Reachable.start none) (Step.initStep _ _)

/-- Witness for C10: after `init({onError: h, ...})` on a fresh instance
the stored handler is still undefined and `handleError` does not invoke
it. -/
theorem onError_never_installed_witness :
    sInitHandler.onError = none ∧
    handleError WalletErrorKind.WalletNotSelectedError sInitHandler = sInitHandler := by
  obtain ⟨h1, h2⟩ := onError_never_installed sInitHandler reachable_sInitHandler
  exact ⟨h1, h2 _⟩

/-!
## Guard flags under the sequential schedule
-/

theorem connectPhase1_connecting_of_not_pending (s : State) :
    (connectPhase1 s).2 ≠ ConnectOutcome.pending →
      (connectPhase1 s).1.connecting = s.connecting := by
  unfold connectPhase1 handleError setWalletName
  dsimp only
  (repeat' split) <;> intro h <;> simp_all

theorem disconnectPhase1_disconnecting_of_not_pending (s : State) :
    (disconnectPhase1 s).2 ≠ DisconnectOutcome.pending →
      (disconnectPhase1 s).1.disconnecting = s.disconnecting := by
  unfold disconnectPhase1 setWalletName
  dsimp only
  (repeat' split) <;> intro h <;> simp_all

theorem connectFull_flags (res : Except WalletErrorKind Unit) (s : State)
    (h1 : s.connecting = false) (h2 : s.disconnecting = false) :
    (connectFull res s).connecting = false ∧ (connectFull res s).disconnecting = false := by
  unfold connectFull
  dsimp only
  split
  next hp =>
    refine ⟨(connectPhase2_frame res (connectPhase1 s).1).2.2.1, ?_⟩
    rw [(connectPhase2_frame res (connectPhase1 s).1).2.2.2.1, (connectPhase1_frame s).2]
    exact h2
  next hp =>
    refine ⟨?_, (connectPhase1_frame s).2 ▸ h2⟩
    rw [connectPhase1_connecting_of_not_pending s hp]
    exact h1

theorem disconnectFull_flags (res : Except WalletErrorKind Unit) (s : State)
    (h1 : s.connecting = false) (h2 : s.disconnecting = false) :
    (disconnectFull res s).connecting = false ∧ (disconnectFull res s).disconnecting = false := by
  unfold disconnectFull
  dsimp only
  split
  next hp =>
    refine ⟨?_, (disconnectPhase2_frame res (disconnectPhase1 s).1).2.1⟩
    rw [(disconnectPhase2_frame res (disconnectPhase1 s).1).1,
      (disconnectPhase1_frame s).2.2.1]
    exact h1
  next hp =>
    refine ⟨(disconnectPhase1_frame s).2.2.1 ▸ h1, ?_⟩
    rw [disconnectPhase1_disconnecting_of_not_pending s hp]
    exact h2

theorem seqStep_flags {s t : State} (hstep : SeqStep s t)
    (h : s.connecting = false ∧ s.disconnecting = false) :
    t.connecting = false ∧ t.disconnecting = false := by
  cases hstep with
  | initStep args =>
    exact ⟨(init_frame args s).2.2.1 ▸ h.1, (init_frame args s).2.2.2 ▸ h.2⟩
  | selectStep name =>
    exact ⟨(setWalletName_frame name s).2.2.1 ▸ h.1,
      (setWalletName_frame name s).2.2.2.1 ▸ h.2⟩
  | connectStep res => exact connectFull_flags res s h.1 h.2
  | disconnectStep res => exact disconnectFull_flags res s h.1 h.2
  | disconnectEv =>
    exact ⟨(handleDisconnect_frame s).1 ▸ h.1, (handleDisconnect_frame s).2.1 ▸ h.2⟩
  | accountEv =>
    exact ⟨(handleAddressChange_frame s).2.2.1 ▸ h.1,
      (handleAddressChange_frame s).2.2.2.1 ▸ h.2⟩
  | networkEv =>
    exact ⟨(handleNetworkChange_frame s).2.2.1 ▸ h.1,
      (handleNetworkChange_frame s).2.2.2.1 ▸ h.2⟩
  | errorEv e =>
    exact ⟨(handleError_frame e s).2.2.1 ▸ h.1, (handleError_frame e s).2.2.2.1 ▸ h.2⟩
  | readyEv current rs => exact h
  | adapterMut a hs => exact h
  | walletsMut ws => exact h

/-- C6 (amended): when lifecycle operations never overlap — every
`connect()`/`disconnect()` call runs to completion before the next
operation starts — `connecting` and `disconnecting` are both `false` in
every reachable state, hence in particular mutually exclusive, and the
implications to `connected = false` hold vacuously.  (The claim as stated
over arbitrary interleavings is refuted by `flags_counterexample`.) -/
theorem flags_false_when_sequential (s : State) (h : SeqReachable s) :
    s.connecting = false ∧ s.disconnecting = false := by
  induction h with
  | start persisted => exact ⟨rfl, rfl⟩
  | step hr hs ih => exact seqStep_flags hs ih

/-- Witness for the amended C6: after a completed `init`, `select("A")` and
a successful `connect()`, both guard flags are `false`. -/
theorem flags_false_when_sequential_witness :
    (connectFull (Except.ok ()) sSelectedA).connecting = false ∧
    (connectFull (Except.ok ()) sSelectedA).disconnecting = false :=
  flags_false_when_sequential _
    (SeqReachable.step
      (SeqReachable.step
        (SeqReachable.step (SeqReachable.start none) (SeqStep.initStep _ argsAB))
        (SeqStep.selectStep _ (some "A")))
      (SeqStep.connectStep _ (Except.ok ())))

/-- C6 counterexample: the state reached by `init`, `select("A")`, a
`connect()` suspended at its adapter call (with an adapter whose own
`connected` flag is `true`), and a `disconnect()` issued meanwhile, has
`connecting`, `disconnecting` and `connected` all `true` at once —
refuting both the mutual exclusion and the implications to
`connected = false`. -/
theorem flags_counterexample :
    Reachable sMidBoth ∧ sMidBoth.connecting = true ∧
    sMidBoth.disconnecting = true ∧ sMidBoth.connected = true :=
  ⟨reachable_sMidBoth, rfl, rfl, rfl⟩

/-!
## Disconnect teardown
-/

theorem detachSessionListeners_eq_nil (ls : List EventKind) :
    detachSessionListeners ls = [] := by
  rw [List.eq_nil_iff_forall_not_mem]
  intro x hx
  simp only [detachSessionListeners, List.mem_filter] at hx
  cases x <;> simp_all

theorem handleDisconnect_teardown (u : State) (h : u.adapter.isSome = true) :
    (handleDisconnect u).walletName = none ∧ (handleDisconnect u).storage = none ∧
    (handleDisconnect u).eventListeners = [] ∧ (handleDisconnect u).wallet = none ∧
    (handleDisconnect u).adapter = none ∧ (handleDisconnect u).account = none ∧
    (handleDisconnect u).walletNetwork = none ∧ (handleDisconnect u).connected = false := by
  unfold handleDisconnect setDefaultState setWalletName
  dsimp only
  (repeat' split) <;> simp_all [detachSessionListeners_eq_nil]

/-- C5: a `disconnect()` call that passes its guard with an active adapter
performs the full teardown no matter whether the adapter's disconnect
operation resolves (`res = ok`) or rejects (`res = error`): `disconnecting`
ends `false`, the persisted selection is cleared, the four session
listeners are detached, and the session is reset to the all-null/false
state; moreover the final state is literally `handleDisconnect` — the
adapter-originated disconnect handler — applied to the pre-`finally`
state. -/
theorem disconnect_always_teardown (s : State) (res : Except WalletErrorKind Unit)
    (hguard : s.disconnecting = false) (hadapter : s.adapter.isSome = true) :
    (disconnectFull res s).disconnecting = false ∧
    (disconnectFull res s).walletName = none ∧
    (disconnectFull res s).storage = none ∧
    (disconnectFull res s).eventListeners = [] ∧
    (disconnectFull res s).wallet = none ∧
    (disconnectFull res s).adapter = none ∧
    (disconnectFull res s).account = none ∧
    (disconnectFull res s).walletNetwork = none ∧
    (disconnectFull res s).connected = false ∧
    disconnectFull res s =
      handleDisconnect
        { (match res with
           | Except.ok _ => { s with disconnecting := true }
           | Except.error _ => setWalletName none { s with disconnecting := true })
          with disconnecting := false } := by
  obtain ⟨a, ha⟩ := Option.isSome_iff_exists.mp hadapter
  have h1 : disconnectPhase1 s = ({ s with disconnecting := true }, DisconnectOutcome.pending) := by
    simp [disconnectPhase1, hguard, ha]
  have h2 : disconnectFull res s = (disconnectPhase2 res { s with disconnecting := true }).1 := by
    simp [disconnectFull, h1]
  cases res with
  | ok u =>
    obtain ⟨k1, k2, k3, k4, k5, k6, k7, k8⟩ :=
      handleDisconnect_teardown { s with disconnecting := false } (by simp [ha])
    obtain ⟨f1, f2, f3⟩ := handleDisconnect_frame { s with disconnecting := false }
    rw [h2]
    dsimp only [disconnectPhase2]
    exact ⟨f2, k1, k2, k3, k4, k5, k6, k7, k8, rfl⟩
  | error e =>
    obtain ⟨k1, k2, k3, k4, k5, k6, k7, k8⟩ :=
      handleDisconnect_teardown
        { setWalletName none { s with disconnecting := true } with disconnecting := false }
        (by simp [setWalletName, ha])
    obtain ⟨f1, f2, f3⟩ := handleDisconnect_frame
      { setWalletName none { s with disconnecting := true } with disconnecting := false }
    rw [h2]
    dsimp only [disconnectPhase2]
    exact ⟨f2, k1, k2, k3, k4, k5, k6, k7, k8, rfl⟩

/-!
## State left behind by a failed connect
-/

/-- C2 counterexample: a `connect()` that raises `WalletNotSelectedError`
(selection `"X"` matching no registered adapter) leaves the persisted
selection `"X"` in place, and a `connect()` that raises
`WalletNotReadyError` (selection `"B"`, a not-detected adapter) leaves the
eagerly populated `adapter` field non-null — the session is not in the
all-null idle state with the selection removed. -/
theorem connect_failure_counterexample :
    (connectPhase1 sSelectedX).2 = ConnectOutcome.errNotSelected ∧
    (connectPhase1 sSelectedX).1.storage = some "X" ∧
    (connectPhase1 sSelectedX).1.walletName = some "X" ∧
    (connectPhase1 sSelectedB).2 = ConnectOutcome.errNotReady ∧
    (connectPhase1 sSelectedB).1.adapter = some adapterB ∧
    (connectPhase1 sSelectedB).1.wallet.isSome = true :=
  ⟨rfl, rfl, rfl, rfl, rfl, rfl⟩

/-- C2 (amended): a `connect()` that fails with `WalletNotReadyError` or
with an adapter rejection clears the persisted selection and resets
`connecting`, but keeps the eagerly populated `wallet`/`adapter` fields (the
session is not reset to the all-null idle state); a `connect()` failing with
`WalletNotSelectedError` leaves every session field and the persisted
selection unchanged. -/
theorem connect_failure_state (s : State)
    (hguard : (s.connecting || s.disconnecting || s.connected) = false) :
    ((connectPhase1 s).2 = ConnectOutcome.errNotSelected →
      ((connectPhase1 s).1.storage = s.storage ∧
       (connectPhase1 s).1.walletName = s.walletName ∧
       (connectPhase1 s).1.wallet = s.wallet ∧
       (connectPhase1 s).1.adapter = s.adapter ∧
       (connectPhase1 s).1.account = s.account ∧
       (connectPhase1 s).1.walletNetwork = s.walletNetwork ∧
       (connectPhase1 s).1.connected = false ∧
       (connectPhase1 s).1.connecting = false)) ∧
    ((connectPhase1 s).2 = ConnectOutcome.errNotReady →
      ((connectPhase1 s).1.storage = none ∧
       (connectPhase1 s).1.walletName = none ∧
       (connectPhase1 s).1.adapter.isSome = true ∧
       (connectPhase1 s).1.wallet.isSome = true ∧
       (connectPhase1 s).1.connecting = false)) ∧
    (∀ e : WalletErrorKind, (connectPhase1 s).2 = ConnectOutcome.pending →
      ((connectPhase2 (Except.error e) (connectPhase1 s).1).1.storage = none ∧
       (connectPhase2 (Except.error e) (connectPhase1 s).1).1.walletName = none ∧
       (connectPhase2 (Except.error e) (connectPhase1 s).1).1.connecting = false ∧
       (connectPhase2 (Except.error e) (connectPhase1 s).1).1.adapter.isSome = true ∧
       (connectPhase2 (Except.error e) (connectPhase1 s).1).1.wallet.isSome = true ∧
       (connectPhase2 (Except.error e) (connectPhase1 s).1).2 = some e)) := by
  have hg : (s.connecting = false ∧ s.disconnecting = false) ∧ s.connected = false := by
    simpa [Bool.or_eq_false_iff] using hguard
  obtain ⟨⟨hg1, hg2⟩, hg3⟩ := hg
  refine ⟨?_, ?_, fun e => ?_⟩ <;>
    simp only [connectPhase1, connectPhase2, handleError, setWalletName] <;>
    (repeat' split) <;> intro h <;> simp_all

/-- Witness for the amended C2 at the not-ready selection `"B"`. -/
theorem connect_failure_state_witness :
    (connectPhase1 sSelectedB).1.storage = none ∧
    (connectPhase1 sSelectedB).1.walletName = none ∧
    (connectPhase1 sSelectedB).1.adapter.isSome = true ∧
    (connectPhase1 sSelectedB).1.wallet.isSome = true ∧
    (connectPhase1 sSelectedB).1.connecting = false :=
  (connect_failure_state sSelectedB rfl).2.1 rfl

/-!
## The connect guard
-/

/-- C3 counterexample: the `connect(name)` of `useVueWalletProvider.ts`
has the re-entrancy guard commented out — invoked while `connecting` is
already `true` it does not return immediately: it issues another adapter
connect call. -/
theorem connectProvider_no_guard_counterexample :
    providerConnecting.connecting = true ∧
    (connectProviderPhase1 "A" providerConnecting).2 = ConnectOutcome.pending ∧
    (connectProviderPhase1 "A" providerConnecting).1.connectCalls = 1 :=
  ⟨rfl, rfl, rfl⟩

/-- C3 (amended): for the `useWallets` session `connect()` the claim holds:
invoked while `connecting`, `disconnecting` or `connected` is `true` it
returns immediately with no effect, no error and no adapter call, and a
pending first call (which has made exactly one adapter connect call) turns
the second call into that no-op; the `useVueWalletProvider` variant lacks
the guard (see the counterexample). -/
theorem connect_guard (s : State) :
    ((s.connecting = true ∨ s.disconnecting = true ∨ s.connected = true) →
      connectPhase1 s = (s, ConnectOutcome.noop)) ∧
    ((connectPhase1 s).2 = ConnectOutcome.pending →
      ((connectPhase1 s).1.connectCalls = s.connectCalls + 1 ∧
       connectPhase1 (connectPhase1 s).1 = ((connectPhase1 s).1, ConnectOutcome.noop))) := by
  constructor
  · intro h
    have hb : (s.connecting || s.disconnecting || s.connected) = true := by
      rcases h with h | h | h <;> simp [h]
    unfold connectPhase1
    simp [hb]
  · intro h
    have hcalls : (connectPhase1 s).1.connectCalls = s.connectCalls + 1 := by
      revert h
      unfold connectPhase1 handleError setWalletName
      dsimp only
      (repeat' split) <;> intro h <;> simp_all
    have hc : (connectPhase1 s).1.connecting = true := by
      revert h
      unfold connectPhase1 handleError setWalletName
      dsimp only
      (repeat' split) <;> intro h <;> simp_all
    refine ⟨hcalls, ?_⟩
    obtain ⟨t, ht⟩ : ∃ t, (connectPhase1 s).1 = t := ⟨_, rfl⟩
    rw [ht] at hc ⊢
    unfold connectPhase1
    simp [hc]

/-- Witness for the amended C3: the pending first call on the concrete
selected session made one adapter call, and the second call while it is
suspended is a pure no-op. -/
theorem connect_guard_witness :
    connectPhase1 sMidConnect = (sMidConnect, ConnectOutcome.noop) ∧
    (connectPhase1 sSelectedA).1.connectCalls = sSelectedA.connectCalls + 1 :=
  ⟨(connect_guard sMidConnect).1 (Or.inl rfl),
   ((connect_guard sSelectedA).2 rfl).1⟩

/-- Witness for C5: disconnecting the concrete connected session tears it
down completely even when the adapter's disconnect rejects. -/
theorem disconnect_always_teardown_witness :
    (disconnectFull (Except.error (WalletErrorKind.AdapterError 0)) sMidConnect).adapter = none ∧
    (disconnectFull (Except.error (WalletErrorKind.AdapterError 0)) sMidConnect).storage = none ∧
    (disconnectFull (Except.error (WalletErrorKind.AdapterError 0)) sMidConnect).eventListeners
      = [] ∧
    (disconnectFull (Except.error (WalletErrorKind.AdapterError 0)) sMidConnect).connected
      = false :=
  have h := disconnect_always_teardown sMidConnect
    (Except.error (WalletErrorKind.AdapterError 0)) rfl rfl
  ⟨h.2.2.2.2.2.1, h.2.2.1, h.2.2.2.1, h.2.2.2.2.2.2.2.2.1⟩

/-!
## The transaction facade
-/

/-- C9: each of `signAndSubmitTransaction`, `signTransaction` and
`signMessage` raises `WalletNotSelectedError` when no adapter is active,
raises `WalletNotConnectedError` when an adapter is active but the session
is not connected, and otherwise delegates to the adapter and returns the
adapter's result unmodified. -/
theorem sign_operations_guards (s : State) (transaction msgPayload : Nat)
    (option : Option Nat) (r1 r2 r3 : Except WalletErrorKind Nat) :
    (s.adapter = none →
      ((signAndSubmitTransaction transaction option r1 s).2
          = Except.error WalletErrorKind.WalletNotSelectedError ∧
       (signTransaction transaction option r2 s).2
          = Except.error WalletErrorKind.WalletNotSelectedError ∧
       (signMessage msgPayload r3 s).2
          = Except.error WalletErrorKind.WalletNotSelectedError)) ∧
    (s.adapter.isSome = true → s.connected = false →
      ((signAndSubmitTransaction transaction option r1 s).2
          = Except.error WalletErrorKind.WalletNotConnectedError ∧
       (signTransaction transaction option r2 s).2
          = Except.error WalletErrorKind.WalletNotConnectedError ∧
       (signMessage msgPayload r3 s).2
          = Except.error WalletErrorKind.WalletNotConnectedError)) ∧
    (s.adapter.isSome = true → s.connected = true →
      ((signAndSubmitTransaction transaction option r1 s).2 = r1 ∧
       (signTransaction transaction option r2 s).2 = r2 ∧
       (signMessage msgPayload r3 s).2 = r3)) := by
  refine ⟨fun h => ?_, fun h1 h2 => ?_, fun h1 h2 => ?_⟩
  · simp [signAndSubmitTransaction, signTransaction, signMessage, h]
  · obtain ⟨a, ha⟩ := Option.isSome_iff_exists.mp h1
    simp [signAndSubmitTransaction, signTransaction, signMessage, ha, h2]
  · obtain ⟨a, ha⟩ := Option.isSome_iff_exists.mp h1
    simp [signAndSubmitTransaction, signTransaction, signMessage, ha, h2]

/-- Witness for C9 on the concrete connected session: all three operations
return the adapter's result unmodified. -/
theorem sign_operations_guards_witness :
    (signAndSubmitTransaction 0 none (Except.ok 5) sMidConnect).2 = Except.ok 5 ∧
    (signTransaction 0 none (Except.ok 6) sMidConnect).2 = Except.ok 6 ∧
    (signMessage 0 (Except.ok 7) sMidConnect).2 = Except.ok 7 :=
  (sign_operations_guards sMidConnect 0 0 none
    (Except.ok 5) (Except.ok 6) (Except.ok 7)).2.2 rfl rfl

/-!
## Minimal update of the wallets view
-/

theorem findIndexW_eq_none (p : Wallet → Bool) (ws : List Wallet)
    (h : ∀ w ∈ ws, p w = false) : findIndexW p ws = none := by
  induction ws with
  | nil => rfl
  | cons w rest ih =>
    have hw := h w (by simp)
    have hrest := ih fun x hx => h x (by simp [hx])
    simp [findIndexW, hw, hrest]

theorem findIndexW_lt_length (p : Wallet → Bool) (ws : List Wallet) (i : Nat)
    (h : findIndexW p ws = some i) : i < ws.length := by
  induction ws generalizing i with
  | nil => cases h
  | cons w rest ih =>
    unfold findIndexW at h
    by_cases hp : p w
    · rw [if_pos hp] at h
      cases h
      simp
    · rw [if_neg hp, Option.map_eq_some'] at h
      obtain ⟨j, hj, rfl⟩ := h
      have := ih j hj
      simp only [List.length_cons]
      omega

theorem handleReadyStateChange_splice (current : WalletAdapter) (rs : WalletReadyState)
    (ws : List Wallet) (i : Nat) (cw : Wallet)
    (hfind : findIndexW (fun w => w.adapter.name == current.name) ws = some i)
    (hget : ws[i]? = some cw) :
    handleReadyStateChange current rs ws
      = ws.set i { adapter := cw.adapter, readyState := rs } := by
  have hi : i < ws.length := findIndexW_lt_length _ ws i hfind
  unfold handleReadyStateChange
  rw [hfind]
  dsimp only
  rw [hget]
  dsimp only
  rw [List.set_eq_take_cons_drop _ hi]

/-- C8: when an adapter reports a readiness change, the derived wallets
list is updated by replacing only that adapter's entry, at its existing
position, with a fresh `{adapter, readyState}` pair built from the existing
entry's adapter object; every other entry is kept unchanged at its
position, and an adapter whose name is not present leaves the list
unchanged. -/
theorem readyStateChange_minimal_update (current : WalletAdapter) (rs : WalletReadyState)
    (ws : List Wallet) :
    ((∀ w ∈ ws, (w.adapter.name == current.name) = false) →
      handleReadyStateChange current rs ws = ws) ∧
    (∀ i cw, findIndexW (fun w => w.adapter.name == current.name) ws = some i →
      ws[i]? = some cw →
      ((handleReadyStateChange current rs ws).length = ws.length ∧
       (handleReadyStateChange current rs ws)[i]?
          = some { adapter := cw.adapter, readyState := rs } ∧
       ∀ j, j ≠ i → (handleReadyStateChange current rs ws)[j]? = ws[j]?)) := by
  constructor
  · intro h
    unfold handleReadyStateChange
    rw [findIndexW_eq_none _ ws h]
  · intro i cw hfind hget
    have hi : i < ws.length := findIndexW_lt_length _ ws i hfind
    rw [handleReadyStateChange_splice current rs ws i cw hfind hget]
    refine ⟨by simp, ?_, fun j hj => ?_⟩
    · rw [List.getElem?_set_eq_of_lt _ hi]
    · rw [List.getElem?_set_ne (Ne.symm hj)]

/-- Witness for C8: changing `adapterB`'s readiness to `Installed` in the
two-entry view replaces only the second entry and keeps the first. -/
theorem readyStateChange_minimal_update_witness :
    (handleReadyStateChange adapterB WalletReadyState.Installed
        [{ adapter := adapterA, readyState := WalletReadyState.Installed },
         { adapter := adapterB, readyState := WalletReadyState.NotDetected }]).length = 2 ∧
    (handleReadyStateChange adapterB WalletReadyState.Installed
        [{ adapter := adapterA, readyState := WalletReadyState.Installed },
         { adapter := adapterB, readyState := WalletReadyState.NotDetected }])[1]?
      = some { adapter := adapterB, readyState := WalletReadyState.Installed } ∧
    (handleReadyStateChange adapterB WalletReadyState.Installed
        [{ adapter := adapterA, readyState := WalletReadyState.Installed },
         { adapter := adapterB, readyState := WalletReadyState.NotDetected }])[0]?
      = some { adapter := adapterA, readyState := WalletReadyState.Installed } :=
  have h := (readyStateChange_minimal_update adapterB WalletReadyState.Installed
    [{ adapter := adapterA, readyState := WalletReadyState.Installed },
     { adapter := adapterB, readyState := WalletReadyState.NotDetected }]).2
    1 { adapter := adapterB, readyState := WalletReadyState.NotDetected } rfl rfl
  ⟨h.1, h.2.1, h.2.2 0 (by decide)⟩

/-!
## Error-handler delivery
-/

/-- C1 is violated by the code: after `init({onError: h})` on a fresh
instance and `select("X")`, `connect()` raises `WalletNotSelectedError`
but the configured handler receives nothing (`handlerCalls` stays empty,
the handler was never stored); and even on a state where a handler *is*
stored, an adapter-connect rejection is rethrown without passing through
`handleError`. -/
theorem error_handler_never_called :
    sHandlerSelectedX.onError = none ∧
    (connectPhase1 sHandlerSelectedX).2 = ConnectOutcome.errNotSelected ∧
    (connectPhase1 sHandlerSelectedX).1.handlerCalls = [] ∧
    (connectPhase2 (Except.error (WalletErrorKind.AdapterError 0))
        { sMidConnect with onError := some 7 }).2
      = some (WalletErrorKind.AdapterError 0) ∧
    (connectPhase2 (Except.error (WalletErrorKind.AdapterError 0))
        { sMidConnect with onError := some 7 }).1.handlerCalls
      = sMidConnect.handlerCalls :=
  ⟨rfl, rfl, rfl, rfl, rfl⟩

/-!
## The readyStateChange subscriptions across registry swaps
-/

/-- C7 is violated by the code: the `onCleanup` of `watch(adapters)` calls
`off` with a freshly created arrow function (identity-based removal removes
nothing) and iterates the already-updated adapter list.  Re-triggering the
watcher over the same one-adapter registry leaves the adapter with two live
`readyStateChange` listeners (ids 0 and 2 — a duplicate), and swapping the
registry from `["A"]` to `["B"]` leaves adapter `A`'s original listener
attached (stale). -/
theorem watch_resubscribe_leaks :
    (watchRun ["A"] (watchBody ["A"] { rsListeners := [("A", [])], nextId := 0 })).rsListeners
      = [("A", [0, 2])] ∧
    (watchRun ["B"]
        (watchBody ["A"] { rsListeners := [("A", []), ("B", [])], nextId := 0 })).rsListeners
      = [("A", [0]), ("B", [2])] :=
  ⟨rfl, rfl⟩

end VueAptosWallets
